import Mathlib

/-!
Verification of the document-permission synchronization engine
(`ee/onyx/background/celery/tasks/doc_permission_syncing/tasks.py`).

The Python module is embedded shallowly: each task body becomes a pure Lean
function over explicit inputs (the results of Redis reads, DB lookups, the
celery queue snapshots, and the produced `DocExternalAccess` sequence), and
each side effect (Redis mutation, DB write, telemetry emission) is recorded in
an explicit effect trace.  Timestamps are seconds as naturals.
-/

namespace DocPermSync

/-- Access type of a connector credential pair (`onyx.db.enums.AccessType`);
only `SYNC` participates in external permission syncing. -/
inductive AccessType
  | SYNC
  | PRIVATE
  | PUBLIC
deriving DecidableEq, Repr

/-- Status of a connector credential pair
(`onyx.db.enums.ConnectorCredentialPairStatus`); only `ACTIVE` participates. -/
inductive CCPairStatus
  | ACTIVE
  | PAUSED
  | DELETING
deriving DecidableEq, Repr

/-- Per-source doc sync configuration (the `doc_sync_config` field of the
record returned by `get_source_perm_sync_config`). -/
structure DocSyncConfig where
  doc_sync_frequency : Nat
  initial_index_should_sync : Bool
deriving DecidableEq, Repr

/-- Per-source permission sync configuration, the record returned by
`get_source_perm_sync_config` (an external registry keyed by source tag). -/
structure SyncConfig where
  doc_sync_config : Option DocSyncConfig
  censoring_config : Option Unit
deriving DecidableEq, Repr

/-- Connector credential pair with exactly the fields the sync scheduler
consumes.  The source tag is abstracted to a natural number. -/
structure CCPair where
  id : Nat
  source : Nat
  access_type : AccessType
  status : CCPairStatus
  last_successful_index_time : Option Nat
  last_time_perm_sync : Option Nat
deriving DecidableEq, Repr

/-- Embedding of `_is_external_doc_permissions_sync_due` (tasks.py 116-156).
`getConfig` stands for the external registry `get_source_perm_sync_config`;
`multiplier` is the value `int(OnyxRuntime.get_doc_permission_sync_multiplier())`
(an external runtime tunable, already truncated to an integer as the code
does); `now` is `datetime.now(timezone.utc)`. -/
def is_external_doc_permissions_sync_due (getConfig : Nat → Option SyncConfig)
    (multiplier : Nat) (now : Nat) (cc_pair : CCPair) : Bool :=
  if cc_pair.access_type ≠ AccessType.SYNC then false
  else if cc_pair.status ≠ CCPairStatus.ACTIVE then false
  else
    match getConfig cc_pair.source with
    | none => false
    | some sync_config =>
      match sync_config.doc_sync_config with
      | none => false
      | some dsc =>
        if dsc.initial_index_should_sync && cc_pair.last_successful_index_time.isNone then
          false
        else
          match cc_pair.last_time_perm_sync with
          | none => true
          | some last_perm_sync =>
            decide (last_perm_sync + dsc.doc_sync_frequency * multiplier ≤ now)

/-- C1: a connector-credential pair is due for external doc permission sync iff
its access type is `SYNC`, its status is `ACTIVE`, a sync config with a non-null
`doc_sync_config` exists for its source, `initial_index_should_sync` implies a
non-null `last_successful_index_time`, and `last_time_perm_sync` is either null
or at least `doc_sync_frequency * multiplier` seconds in the past.  In
particular a CCP with null `last_time_perm_sync` satisfying the rest is due
immediately, and a CCP with `initial_index_should_sync` and null
`last_successful_index_time` is never due. -/
theorem C1_due_policy (getConfig : Nat → Option SyncConfig) (multiplier now : Nat)
    (cc_pair : CCPair) :
    (is_external_doc_permissions_sync_due getConfig multiplier now cc_pair = true ↔
      cc_pair.access_type = AccessType.SYNC ∧ cc_pair.status = CCPairStatus.ACTIVE ∧
        ∃ sync_config dsc, getConfig cc_pair.source = some sync_config ∧
          sync_config.doc_sync_config = some dsc ∧
          (dsc.initial_index_should_sync = true → cc_pair.last_successful_index_time ≠ none) ∧
          (cc_pair.last_time_perm_sync = none ∨
            ∃ last, cc_pair.last_time_perm_sync = some last ∧
              last + dsc.doc_sync_frequency * multiplier ≤ now)) ∧
    (∀ sync_config dsc, cc_pair.access_type = AccessType.SYNC →
      cc_pair.status = CCPairStatus.ACTIVE →
      getConfig cc_pair.source = some sync_config →
      sync_config.doc_sync_config = some dsc →
      (dsc.initial_index_should_sync = true → cc_pair.last_successful_index_time ≠ none) →
      cc_pair.last_time_perm_sync = none →
      is_external_doc_permissions_sync_due getConfig multiplier now cc_pair = true) ∧
    (∀ sync_config dsc, getConfig cc_pair.source = some sync_config →
      sync_config.doc_sync_config = some dsc →
      dsc.initial_index_should_sync = true →
      cc_pair.last_successful_index_time = none →
      is_external_doc_permissions_sync_due getConfig multiplier now cc_pair = false) := by
  obtain ⟨cid, src, acc, st, lsit, ltps⟩ := cc_pair
  refine ⟨?_, ?_, ?_⟩
  · unfold is_external_doc_permissions_sync_due
    cases acc <;> cases st <;>
      simp only [ne_eq, if_true, if_false, reduceCtorEq, not_false_eq_true, not_true_eq_false,
        ite_true, ite_false, Bool.false_eq_true, false_iff, false_and, and_false] <;>
      try simp
    all_goals {
      cases hcfg : getConfig src with
      | none => simp [hcfg]
      | some sync_config =>
        cases hdsc : sync_config.doc_sync_config with
        | none => simp [hcfg, hdsc]
        | some dsc =>
          cases hinit : dsc.initial_index_should_sync with
          | false =>
            cases ltps with
            | none => simp [hcfg, hdsc, hinit]
            | some last => simp [hcfg, hdsc, hinit]
          | true =>
            cases lsit with
            | none => simp [hcfg, hdsc, hinit]
            | some t =>
              cases ltps with
              | none => simp [hcfg, hdsc, hinit]
              | some last => simp [hcfg, hdsc, hinit]
    }
  · intro sync_config dsc hacc hst hcfg hdsc hinit hltps
    dsimp only at hacc hst hcfg hltps
    subst hacc; subst hst; subst hltps
    unfold is_external_doc_permissions_sync_due
    cases hi : dsc.initial_index_should_sync with
    | false => simp [hcfg, hdsc, hi]
    | true =>
      cases hl : lsit with
      | none => exact absurd hl (hinit hi)
      | some t => simp [hcfg, hdsc, hi, hl]
  · intro sync_config dsc hcfg hdsc hinit hlsit
    dsimp only at hcfg hlsit
    subst hlsit
    unfold is_external_doc_permissions_sync_due
    cases acc <;> cases st <;> simp [hcfg, hdsc, hinit]

/-- A concrete registry mapping every source to a config with a 60-second doc
sync frequency and no initial-index gating. -/
def getConfigW : Nat → Option SyncConfig := fun _ =>
  some { doc_sync_config := some { doc_sync_frequency := 60, initial_index_should_sync := false },
         censoring_config := none }

/-- A concrete CCP that has never been permission-synced. -/
def ccPairW : CCPair :=
  { id := 7, source := 0, access_type := .SYNC, status := .ACTIVE,
    last_successful_index_time := none, last_time_perm_sync := none }

/-- Witness for C1: the concrete never-synced CCP is due immediately. -/
theorem C1_due_policy_witness :
    is_external_doc_permissions_sync_due getConfigW 1 0 ccPairW = true :=
  (C1_due_policy getConfigW 1 0 ccPairW).2.1
    { doc_sync_config := some { doc_sync_frequency := 60, initial_index_should_sync := false },
      censoring_config := none }
    { doc_sync_frequency := 60, initial_index_should_sync := false }
    rfl rfl rfl rfl (by decide) rfl

/-- Fence payload (`RedisConnectorPermissionSyncPayload`): correlation id,
submission time, start time (null until the generator begins), and the celery
task id of the generator (null until enqueue returns). -/
structure Payload where
  id : String
  submitted : Nat
  started : Option Nat
  celery_task_id : Option String
deriving DecidableEq, Repr

/-- Result of reading and parsing the fence payload from Redis: a parsed
payload, a payload that fails Pydantic validation (`ValidationError`), or a
missing payload. -/
inductive PayloadRead
  | valid (p : Payload)
  | invalid
  | missing
deriving DecidableEq, Repr

/-- Sync record status values used by the monitor (`onyx.db.enums.SyncStatus`). -/
inductive SyncStatus
  | IN_PROGRESS
  | SUCCESS
  | FAILURE
deriving DecidableEq, Repr

/-- One observable side effect of `monitor_ccpair_permissions_taskset`: a
telemetry emission, a database write, or the fence reset. -/
inductive MonitorEffect
  | telemetry_progress (total_docs_synced : Nat) (remaining_docs_to_sync : Nat)
  | mark_cc_pair_as_permissions_synced (cc_pair_id : Nat) (time : Option Nat)
  | telemetry_complete (cc_pair_id : Nat)
  | update_sync_record_status (entity_id : Nat) (status : SyncStatus) (num_docs_synced : Nat)
  | reset_fence
deriving DecidableEq, Repr

/-- Embedding of `monitor_ccpair_permissions_taskset` (tasks.py 900-979) for a
fence key that parses to `cc_pair_id`.  Inputs are the Redis reads the function
performs: `fenced` (fence key existence), `generator_complete` (the integer or
null), `payload` (the parse attempt), and `remaining` (`get_remaining()`, the
taskset cardinality).  The returned list is the ordered trace of telemetry
emissions, database writes, and the fence reset. -/
def monitor_ccpair_permissions_taskset (cc_pair_id : Nat) (fenced : Bool)
    (generator_complete : Option Nat) (payload : PayloadRead) (remaining : Nat) :
    List MonitorEffect :=
  if !fenced then []
  else
    match generator_complete with
    | none => []
    | some initial =>
      match payload with
      | .invalid => []
      | .missing => []
      | .valid p =>
        if remaining > 0 then
          [MonitorEffect.telemetry_progress initial remaining]
        else
          [MonitorEffect.telemetry_progress initial remaining,
           MonitorEffect.mark_cc_pair_as_permissions_synced cc_pair_id p.started,
           MonitorEffect.telemetry_complete cc_pair_id,
           MonitorEffect.update_sync_record_status cc_pair_id SyncStatus.SUCCESS initial,
           MonitorEffect.reset_fence]

/-- C2: the progress monitor performs no database write and no fence mutation
when the fence is absent, `generator_complete` is null, or the payload fails to
parse (or is missing); when `remaining > 0` it emits only the progress
telemetry record; and when `remaining = 0` it marks the CCP permissions-synced
with timestamp `payload.started`, updates the sync record to `SUCCESS` with
`num_docs_synced = generator_complete`, emits completion telemetry, and resets
the fence. -/
theorem C2_monitor_finalization (cc_pair_id : Nat) (generator_complete : Option Nat)
    (payload : PayloadRead) (remaining : Nat) :
    (∀ fenced, (fenced = false ∨ generator_complete = none ∨ payload = .invalid ∨
        payload = .missing) →
      monitor_ccpair_permissions_taskset cc_pair_id fenced generator_complete payload
        remaining = []) ∧
    (∀ initial p, generator_complete = some initial → payload = .valid p → remaining > 0 →
      monitor_ccpair_permissions_taskset cc_pair_id true generator_complete payload
        remaining = [MonitorEffect.telemetry_progress initial remaining]) ∧
    (∀ initial p, generator_complete = some initial → payload = .valid p → remaining = 0 →
      monitor_ccpair_permissions_taskset cc_pair_id true generator_complete payload
        remaining =
        [MonitorEffect.telemetry_progress initial remaining,
         MonitorEffect.mark_cc_pair_as_permissions_synced cc_pair_id p.started,
         MonitorEffect.telemetry_complete cc_pair_id,
         MonitorEffect.update_sync_record_status cc_pair_id SyncStatus.SUCCESS initial,
         MonitorEffect.reset_fence]) := by
  refine ⟨?_, ?_, ?_⟩
  · rintro fenced (h | h | h | h)
    · subst h; simp [monitor_ccpair_permissions_taskset]
    · subst h
      cases fenced <;> simp [monitor_ccpair_permissions_taskset]
    · subst h
      cases fenced <;> rcases generator_complete with _ | initial <;>
        simp [monitor_ccpair_permissions_taskset]
    · subst h
      cases fenced <;> rcases generator_complete with _ | initial <;>
        simp [monitor_ccpair_permissions_taskset]
  · intro initial p hg hp hr
    subst hg; subst hp
    simp [monitor_ccpair_permissions_taskset, hr]
  · intro initial p hg hp hr
    subst hg; subst hp; subst hr
    simp [monitor_ccpair_permissions_taskset]

/-- Witness for C2: on a concrete drained fence (`generator_complete = 3`,
`remaining = 0`) the monitor emits progress telemetry, marks the CCP synced at
the payload start time, records `SUCCESS` with 3 docs, emits completion
telemetry, and resets the fence. -/
theorem C2_monitor_finalization_witness :
    monitor_ccpair_permissions_taskset 7 true (some 3)
      (.valid { id := "abc123", submitted := 100, started := some 150,
                celery_task_id := some "t1" }) 0 =
      [MonitorEffect.telemetry_progress 3 0,
       MonitorEffect.mark_cc_pair_as_permissions_synced 7 (some 150),
       MonitorEffect.telemetry_complete 7,
       MonitorEffect.update_sync_record_status 7 SyncStatus.SUCCESS 3,
       MonitorEffect.reset_fence] :=
  (C2_monitor_finalization 7 (some 3)
      (.valid { id := "abc123", submitted := 100, started := some 150,
                celery_task_id := some "t1" }) 0).2.2 3
    { id := "abc123", submitted := 100, started := some 150, celery_task_id := some "t1" }
    rfl rfl rfl

/-- A document's external ACL as produced by `doc_sync_func`
(`onyx.access.models.DocExternalAccess`): a document id together with the
external user emails, external group ids, and public flag. -/
structure DocExternalAccess where
  doc_id : String
  external_user_emails : List String
  external_user_group_ids : List String
  is_public : Bool
deriving DecidableEq, Repr

/-- What the generator observes when it reads the fence at a given second of
the readiness wait: fence key absent, payload unparseable or falsy, or a
parsed payload. -/
inductive FenceObs
  | absent
  | invalid
  | ready (p : Payload)
deriving DecidableEq, Repr

/-- The fence observation that keeps the readiness loop waiting: a parsed
payload whose `celery_task_id` is still null. -/
def fenceWaiting : FenceObs → Bool
  | .ready p => p.celery_task_id.isNone
  | _ => false

/-- Fatal errors raised by `connector_permission_sync_generator_task`.  The
task is a celery `shared_task` with no retry configuration, so every raise is
final. -/
inductive GenErr
  | fence_wait_timed_out
  | fence_not_found
  | payload_invalid
  | cc_pair_not_found
  | validate_ccpair_failed
  | no_doc_sync_func
  | no_fence_payload
  | producer_raised
deriving DecidableEq, Repr

/-- One iteration step of the fence readiness wait (tasks.py 389-424),
recursing on the remaining fuel.  Iteration `t` happens `t` seconds after the
start (the loop sleeps 1 s between polls); the timeout check
`time.monotonic() - start > CELERY_TASK_WAIT_FOR_FENCE_TIMEOUT` therefore
fires exactly when the fuel `timeout + 1 - t` runs out. -/
def waitForFenceAux (obs : Nat → FenceObs) : Nat → Nat → Except GenErr Payload
  | _, 0 => .error .fence_wait_timed_out
  | t, fuel + 1 =>
    match obs t with
    | .absent => .error .fence_not_found
    | .invalid => .error .payload_invalid
    | .ready p =>
      match p.celery_task_id with
      | none => waitForFenceAux obs (t + 1) fuel
      | some _ => .ok p

/-- The fence readiness wait of `connector_permission_sync_generator_task`:
poll the fence once a second; iterations `0 .. timeout` run, after which the
elapsed time exceeds `CELERY_TASK_WAIT_FOR_FENCE_TIMEOUT` and the task raises. -/
def waitForFence (obs : Nat → FenceObs) (timeout : Nat) : Except GenErr Payload :=
  waitForFenceAux obs 0 (timeout + 1)

/-- The lazy `DocExternalAccess` sequence returned by `doc_sync_func`: it
either yields finitely many records and is exhausted, or raises after
yielding a prefix (this also covers an upsert raising inside the loop). -/
inductive Producer
  | yields (docs : List DocExternalAccess)
  | raisesAfter (docs : List DocExternalAccess)
deriving DecidableEq, Repr

/-- One observable side effect of the generator task body: a fence payload
write, a synchronous ACL upsert (`redis_connector.permissions.update_db`), the
`generator_complete` write, or the exception-path cleanup calls. -/
inductive GenEffect
  | set_fence (p : Option Payload)
  | upsert (d : DocExternalAccess)
  | set_generator_complete (n : Nat)
  | generator_clear
  | taskset_clear
deriving DecidableEq, Repr

/-- Inputs of one execution of `connector_permission_sync_generator_task`:
the fence observations during the readiness wait, the wait timeout constant,
whether the per-CCP sync lock was acquired, the DB lookup of the CCP, whether
`validate_ccpair_for_user` raised, the sync-config registry, the payload
re-read before the `started` write, the current time, the producer behaviour,
and whether the lock is still owned when the `finally` block runs. -/
structure GenInputs where
  obs : Nat → FenceObs
  fence_wait_timeout : Nat
  lock_acquired : Bool
  cc_pair : Option CCPair
  validate_raises : Bool
  getConfig : Nat → Option SyncConfig
  payload_reread : Option Payload
  now : Nat
  producer : Producer
  lock_owned_at_exit : Bool

/-- The `try`-block of the generator task (tasks.py 440-553) after the lock is
acquired: returns the effect trace it produced together with the exception it
raised, if any (`none` means the block returned normally). -/
def generator_sync_body (inp : GenInputs) : List GenEffect × Option GenErr :=
  match inp.cc_pair with
  | none => ([], some .cc_pair_not_found)
  | some cc_pair =>
    if inp.validate_raises then ([], some .validate_ccpair_failed)
    else
      match inp.getConfig cc_pair.source with
      | none => ([], none)
      | some sync_config =>
        match sync_config.doc_sync_config with
        | none =>
          match sync_config.censoring_config with
          | some _ => ([], none)
          | none => ([], some .no_doc_sync_func)
        | some _ =>
          match inp.payload_reread with
          | none => ([], some .no_fence_payload)
          | some payload =>
            let new_payload : Payload :=
              { id := payload.id, submitted := payload.submitted,
                started := some inp.now, celery_task_id := payload.celery_task_id }
            match inp.producer with
            | .yields docs =>
              (GenEffect.set_fence (some new_payload) ::
                  (docs.map GenEffect.upsert ++
                    [GenEffect.set_generator_complete docs.length]),
                none)
            | .raisesAfter docs =>
              (GenEffect.set_fence (some new_payload) :: docs.map GenEffect.upsert,
                some .producer_raised)

/-- Outcome of one execution of the generator task: the exception it re-raised
(`none` when it returned normally), the ordered effect trace, and whether the
per-CCP sync lock was released on the way out. -/
structure GenOutcome where
  raised : Option GenErr
  effects : List GenEffect
  lock_released : Bool
deriving DecidableEq, Repr

/-- Embedding of `connector_permission_sync_generator_task` (tasks.py
363-574): the fence readiness wait, the non-blocking lock acquisition, the
`try` body, the `except` block (clear `generator_complete`, clear the taskset,
delete the fence, re-raise), and the `finally` block (release the lock if
still owned). -/
def connector_permission_sync_generator_task (inp : GenInputs) : GenOutcome :=
  match waitForFence inp.obs inp.fence_wait_timeout with
  | .error e => { raised := some e, effects := [], lock_released := false }
  | .ok _ =>
    if !inp.lock_acquired then
      { raised := none, effects := [], lock_released := false }
    else
      match generator_sync_body inp with
      | (effs, none) =>
        { raised := none, effects := effs, lock_released := inp.lock_owned_at_exit }
      | (effs, some e) =>
        { raised := some e,
          effects := effs ++
            [GenEffect.generator_clear, GenEffect.taskset_clear, GenEffect.set_fence none],
          lock_released := inp.lock_owned_at_exit }

/-- If every poll in the fuel window still sees a waiting fence, the readiness
loop exhausts its fuel and raises the timeout error. -/
theorem waitForFenceAux_timeout (obs : Nat → FenceObs) :
    ∀ fuel t, (∀ i, t ≤ i → i < t + fuel → fenceWaiting (obs i) = true) →
      waitForFenceAux obs t fuel = .error .fence_wait_timed_out := by
  intro fuel
  induction fuel with
  | zero => intro t _; rfl
  | succ fuel ih =>
    intro t h
    have h0 : fenceWaiting (obs t) = true := h t (Nat.le_refl t) (by omega)
    cases hobs : obs t with
    | absent => rw [hobs] at h0; simp [fenceWaiting] at h0
    | invalid => rw [hobs] at h0; simp [fenceWaiting] at h0
    | ready p =>
      rw [hobs] at h0
      have hc : p.celery_task_id = none := by
        simpa [fenceWaiting, Option.isNone_iff_eq_none] using h0
      have hrec := ih (t + 1) (fun i h1 h2 => h i (by omega) (by omega))
      simp [waitForFenceAux, hobs, hc, hrec]

/-- If the fence is waiting for the first `j` polls and vanishes at poll `j`
(within the fuel window), the readiness loop raises the fence-not-found error. -/
theorem waitForFenceAux_absent (obs : Nat → FenceObs) :
    ∀ j fuel t, j < fuel → (∀ i, t ≤ i → i < t + j → fenceWaiting (obs i) = true) →
      obs (t + j) = .absent →
      waitForFenceAux obs t fuel = .error .fence_not_found := by
  intro j
  induction j with
  | zero =>
    intro fuel t hj h hobs
    cases fuel with
    | zero => omega
    | succ f =>
      rw [Nat.add_zero] at hobs
      simp [waitForFenceAux, hobs]
  | succ j ih =>
    intro fuel t hj h hobs
    cases fuel with
    | zero => omega
    | succ f =>
      have h0 : fenceWaiting (obs t) = true := h t (Nat.le_refl t) (by omega)
      cases hobs0 : obs t with
      | absent => rw [hobs0] at h0; simp [fenceWaiting] at h0
      | invalid => rw [hobs0] at h0; simp [fenceWaiting] at h0
      | ready q =>
        rw [hobs0] at h0
        have hq : q.celery_task_id = none := by
          simpa [fenceWaiting, Option.isNone_iff_eq_none] using h0
        have hrec := ih f (t + 1) (by omega) (fun i h1 h2 => h i (by omega) (by omega))
          (by rw [show t + 1 + j = t + (j + 1) by omega]; exact hobs)
        simp [waitForFenceAux, hobs0, hq, hrec]

/-- If the fence is waiting for the first `j` polls and at poll `j` (within the
fuel window) shows a parsed payload with a non-null `celery_task_id`, the
readiness loop returns that payload. -/
theorem waitForFenceAux_found (obs : Nat → FenceObs) :
    ∀ j fuel t p, j < fuel → (∀ i, t ≤ i → i < t + j → fenceWaiting (obs i) = true) →
      obs (t + j) = .ready p → p.celery_task_id ≠ none →
      waitForFenceAux obs t fuel = .ok p := by
  intro j
  induction j with
  | zero =>
    intro fuel t p hj h hobs hc
    cases fuel with
    | zero => omega
    | succ f =>
      rw [Nat.add_zero] at hobs
      cases hcc : p.celery_task_id with
      | none => exact absurd hcc hc
      | some tid => simp [waitForFenceAux, hobs, hcc]
  | succ j ih =>
    intro fuel t p hj h hobs hc
    cases fuel with
    | zero => omega
    | succ f =>
      have h0 : fenceWaiting (obs t) = true := h t (Nat.le_refl t) (by omega)
      cases hobs0 : obs t with
      | absent => rw [hobs0] at h0; simp [fenceWaiting] at h0
      | invalid => rw [hobs0] at h0; simp [fenceWaiting] at h0
      | ready q =>
        rw [hobs0] at h0
        have hq : q.celery_task_id = none := by
          simpa [fenceWaiting, Option.isNone_iff_eq_none] using h0
        have hrec := ih f (t + 1) p (by omega) (fun i h1 h2 => h i (by omega) (by omega))
          (by rw [show t + 1 + j = t + (j + 1) by omega]; exact hobs) hc
        simp [waitForFenceAux, hobs0, hq, hrec]

/-- Conversely, a successful readiness wait exhibits a poll at which the fence
was parsed with a non-null `celery_task_id`, all earlier polls waiting. -/
theorem waitForFenceAux_ok_inv (obs : Nat → FenceObs) :
    ∀ fuel t p, waitForFenceAux obs t fuel = .ok p →
      ∃ j, j < fuel ∧ obs (t + j) = .ready p ∧ p.celery_task_id ≠ none ∧
        (∀ i, t ≤ i → i < t + j → fenceWaiting (obs i) = true) := by
  intro fuel
  induction fuel with
  | zero => intro t p h; exact absurd h (by simp [waitForFenceAux])
  | succ fuel ih =>
    intro t p h
    unfold waitForFenceAux at h
    cases hobs : obs t with
    | absent => rw [hobs] at h; exact absurd h (by simp)
    | invalid => rw [hobs] at h; exact absurd h (by simp)
    | ready q =>
      rw [hobs] at h
      cases hq : q.celery_task_id with
      | none =>
        simp only [hq] at h
        obtain ⟨j, hj, hobsj, hcj, hwj⟩ := ih (t + 1) p h
        refine ⟨j + 1, by omega, ?_, hcj, ?_⟩
        · rw [show t + (j + 1) = t + 1 + j by omega]; exact hobsj
        · intro i h1 h2
          rcases Nat.eq_or_lt_of_le h1 with h1 | h1
          · subst h1; simp [fenceWaiting, hobs, hq]
          · exact hwj i (by omega) (by omega)
      | some tid =>
        simp only [hq] at h
        have hqp : q = p := by
          simpa using h
        subst hqp
        exact ⟨0, by omega, by rw [Nat.add_zero]; exact hobs, by simp [hq], by omega⟩

/-- C4: the generator task polls the fence at 1-second intervals for up to
`CELERY_TASK_WAIT_FOR_FENCE_TIMEOUT` seconds; if every poll within the timeout
still sees a null `celery_task_id` it raises the timeout error with no side
effects, if the fence vanishes during the wait it raises fence-not-found with
no side effects (the task has no celery retry configuration, so both raises
are final), and a successful wait exhibits a poll at or before the timeout at
which the fence existed, the payload parsed, and `celery_task_id` was
non-null. -/
theorem C4_fence_readiness_wait (inp : GenInputs) :
    ((∀ t, t ≤ inp.fence_wait_timeout → fenceWaiting (inp.obs t) = true) →
      connector_permission_sync_generator_task inp =
        { raised := some .fence_wait_timed_out, effects := [], lock_released := false }) ∧
    (∀ t, t ≤ inp.fence_wait_timeout → (∀ i, i < t → fenceWaiting (inp.obs i) = true) →
      inp.obs t = .absent →
      connector_permission_sync_generator_task inp =
        { raised := some .fence_not_found, effects := [], lock_released := false }) ∧
    (∀ p, waitForFence inp.obs inp.fence_wait_timeout = .ok p →
      ∃ t, t ≤ inp.fence_wait_timeout ∧ inp.obs t = .ready p ∧ p.celery_task_id ≠ none ∧
        (∀ i, i < t → fenceWaiting (inp.obs i) = true)) := by
  refine ⟨?_, ?_, ?_⟩
  · intro h
    have hw : waitForFence inp.obs inp.fence_wait_timeout = .error .fence_wait_timed_out :=
      waitForFenceAux_timeout inp.obs (inp.fence_wait_timeout + 1) 0
        (fun i h1 h2 => h i (by omega))
    simp [connector_permission_sync_generator_task, hw]
  · intro t ht hwait hobs
    have hw : waitForFence inp.obs inp.fence_wait_timeout = .error .fence_not_found :=
      waitForFenceAux_absent inp.obs t (inp.fence_wait_timeout + 1) 0 (by omega)
        (fun i h1 h2 => hwait i (by omega)) (by rw [Nat.zero_add]; exact hobs)
    simp [connector_permission_sync_generator_task, hw]
  · intro p h
    obtain ⟨j, hj, hobsj, hcj, hwj⟩ := waitForFenceAux_ok_inv inp.obs
      (inp.fence_wait_timeout + 1) 0 p h
    rw [Nat.zero_add] at hobsj
    exact ⟨j, by omega, hobsj, hcj, fun i hi => hwj i (by omega) (by omega)⟩

/-- Witness for C4: on a run whose fence key is absent from the very first
poll, the generator task raises fence-not-found with no side effects. -/
theorem C4_fence_readiness_wait_witness :
    connector_permission_sync_generator_task
      { obs := fun _ => .absent, fence_wait_timeout := 5, lock_acquired := true,
        cc_pair := none, validate_raises := false, getConfig := fun _ => none,
        payload_reread := none, now := 0, producer := .yields [],
        lock_owned_at_exit := true } =
      { raised := some .fence_not_found, effects := [], lock_released := false } :=
  (C4_fence_readiness_wait
      { obs := fun _ => .absent, fence_wait_timeout := 5, lock_acquired := true,
        cc_pair := none, validate_raises := false, getConfig := fun _ => none,
        payload_reread := none, now := 0, producer := .yields [],
        lock_owned_at_exit := true }).2.1 0 (by omega)
    (fun i hi => absurd hi (Nat.not_lt_zero i)) rfl

/-- C3: whenever the generator task has acquired the per-CCP sync lock and the
`try` body raises any exception, the task appends exactly the cleanup sequence
clear `generator_complete`, clear the taskset, delete the fence
(`set_fence(None)`), re-raises the same exception, and releases the lock in
the `finally` block (it still owns the lock on this path). -/
theorem C3_generator_exception_cleanup (inp : GenInputs) (p : Payload)
    (effs : List GenEffect) (e : GenErr)
    (hwait : waitForFence inp.obs inp.fence_wait_timeout = .ok p)
    (hlock : inp.lock_acquired = true)
    (hown : inp.lock_owned_at_exit = true)
    (hbody : generator_sync_body inp = (effs, some e)) :
    connector_permission_sync_generator_task inp =
      { raised := some e,
        effects := effs ++
          [GenEffect.generator_clear, GenEffect.taskset_clear, GenEffect.set_fence none],
        lock_released := true } := by
  unfold connector_permission_sync_generator_task
  rw [hwait]
  simp [hlock, hbody, hown]

/-- A concrete already-finalized fence payload used by the C3 witness. -/
def payloadW3 : Payload :=
  { id := "w3", submitted := 0, started := none, celery_task_id := some "t3" }

/-- Witness for C3: on a run whose CCP lookup fails, the generator raises
`cc_pair_not_found`, its trace is exactly the cleanup sequence, and the lock
is released. -/
theorem C3_generator_exception_cleanup_witness :
    connector_permission_sync_generator_task
      { obs := fun _ => .ready payloadW3,
        fence_wait_timeout := 5, lock_acquired := true, cc_pair := none,
        validate_raises := false, getConfig := fun _ => none,
        payload_reread := none, now := 0, producer := .yields [],
        lock_owned_at_exit := true } =
      { raised := some .cc_pair_not_found,
        effects := [GenEffect.generator_clear, GenEffect.taskset_clear,
                    GenEffect.set_fence none],
        lock_released := true } :=
  C3_generator_exception_cleanup _ payloadW3
    [] .cc_pair_not_found rfl rfl rfl rfl

/-- Recognizer for `generator_complete` writes in a generator effect trace. -/
def isGeneratorCompleteWrite : GenEffect → Bool
  | .set_generator_complete _ => true
  | _ => false

/-- Recognizer for ACL upserts in a generator effect trace. -/
def isUpsertEffect : GenEffect → Bool
  | .upsert _ => true
  | _ => false

/-- The payload the generator writes back before the first upsert: the
re-read payload with `started` set to the current time, `id`, `submitted`,
and `celery_task_id` preserved (tasks.py 490-496). -/
def startedPayload (p : Payload) (now : Nat) : Payload :=
  { id := p.id, submitted := p.submitted, started := some now,
    celery_task_id := p.celery_task_id }

/-- C5: on a run of the generator that completes normally through the sync
path (`doc_sync_func` yields `docs` and is exhausted), the trace is exactly
the fence write carrying `started = now`, followed by one synchronous upsert
per produced `DocExternalAccess` in production order, followed by the single
`generator_complete` write whose value is `tasks_generated = docs.length`:
the `started` write precedes every upsert, `generator_complete` is written
exactly once and last. -/
theorem C5_generator_ordering (inp : GenInputs) (p p2 : Payload) (cc : CCPair)
    (sc : SyncConfig) (dsc : DocSyncConfig) (docs : List DocExternalAccess)
    (hwait : waitForFence inp.obs inp.fence_wait_timeout = .ok p)
    (hlock : inp.lock_acquired = true)
    (hcc : inp.cc_pair = some cc)
    (hval : inp.validate_raises = false)
    (hcfg : inp.getConfig cc.source = some sc)
    (hdsc : sc.doc_sync_config = some dsc)
    (hpl : inp.payload_reread = some p2)
    (hprod : inp.producer = .yields docs) :
    connector_permission_sync_generator_task inp =
      { raised := none,
        effects := GenEffect.set_fence (some (startedPayload p2 inp.now)) ::
          (docs.map GenEffect.upsert ++ [GenEffect.set_generator_complete docs.length]),
        lock_released := inp.lock_owned_at_exit } ∧
    (∃ q, (connector_permission_sync_generator_task inp).effects.head? =
        some (GenEffect.set_fence (some q)) ∧ q.started = some inp.now) ∧
    (connector_permission_sync_generator_task inp).effects.filter isUpsertEffect =
      docs.map GenEffect.upsert ∧
    ((connector_permission_sync_generator_task inp).effects.countP
        fun eff => isGeneratorCompleteWrite eff) = 1 ∧
    (connector_permission_sync_generator_task inp).effects.getLast? =
      some (GenEffect.set_generator_complete docs.length) := by
  have hbody : generator_sync_body inp =
      (GenEffect.set_fence (some (startedPayload p2 inp.now)) ::
        (docs.map GenEffect.upsert ++ [GenEffect.set_generator_complete docs.length]),
        none) := by
    unfold generator_sync_body startedPayload
    rw [hcc]
    simp [hval, hcfg, hdsc, hpl, hprod]
  have htask : connector_permission_sync_generator_task inp =
      { raised := none,
        effects := GenEffect.set_fence (some (startedPayload p2 inp.now)) ::
          (docs.map GenEffect.upsert ++ [GenEffect.set_generator_complete docs.length]),
        lock_released := inp.lock_owned_at_exit } := by
    unfold connector_permission_sync_generator_task
    rw [hwait]
    simp [hlock, hbody]
  have hfilter : ∀ ds : List DocExternalAccess,
      (ds.map GenEffect.upsert).filter isUpsertEffect = ds.map GenEffect.upsert := by
    intro ds
    induction ds with
    | nil => rfl
    | cons d ds ih => simp [isUpsertEffect, ih]
  have hcount : ∀ ds : List DocExternalAccess,
      (ds.map GenEffect.upsert).countP (fun eff => isGeneratorCompleteWrite eff) = 0 := by
    intro ds
    induction ds with
    | nil => rfl
    | cons d ds ih => simp [List.countP_cons, isGeneratorCompleteWrite, ih]
  refine ⟨htask, ?_, ?_, ?_, ?_⟩
  · exact ⟨startedPayload p2 inp.now, by rw [htask]; rfl, rfl⟩
  · rw [htask]
    show (GenEffect.set_fence (some (startedPayload p2 inp.now)) ::
        (docs.map GenEffect.upsert ++
          [GenEffect.set_generator_complete docs.length])).filter isUpsertEffect =
      docs.map GenEffect.upsert
    rw [List.filter_cons, List.filter_append, hfilter]
    simp [isUpsertEffect]
  · rw [htask]
    show (GenEffect.set_fence (some (startedPayload p2 inp.now)) ::
        (docs.map GenEffect.upsert ++
          [GenEffect.set_generator_complete docs.length])).countP
        (fun eff => isGeneratorCompleteWrite eff) = 1
    rw [List.countP_cons, List.countP_append, hcount]
    simp [List.countP_cons, isGeneratorCompleteWrite]
  · rw [htask]
    rw [show GenEffect.set_fence (some (startedPayload p2 inp.now)) ::
        (docs.map GenEffect.upsert ++ [GenEffect.set_generator_complete docs.length]) =
        (GenEffect.set_fence (some (startedPayload p2 inp.now)) ::
          docs.map GenEffect.upsert) ++ [GenEffect.set_generator_complete docs.length]
      from rfl]
    exact List.getLast?_concat _

/-- A concrete ready fence payload used by the C5 witness. -/
def payloadW5 : Payload :=
  { id := "w5", submitted := 1, started := none, celery_task_id := some "t5" }

/-- First concrete document ACL used by the C5 witness. -/
def docW1 : DocExternalAccess :=
  { doc_id := "d1", external_user_emails := ["a@x"],
    external_user_group_ids := [], is_public := false }

/-- Second concrete document ACL used by the C5 witness. -/
def docW2 : DocExternalAccess :=
  { doc_id := "d2", external_user_emails := [],
    external_user_group_ids := ["g"], is_public := true }

/-- The concrete generator inputs of the C5 witness: a ready fence, the lock
acquired, a registered sync config, and a producer yielding two documents. -/
def genInputsW5 : GenInputs :=
  { obs := fun _ => .ready payloadW5,
    fence_wait_timeout := 5, lock_acquired := true, cc_pair := some ccPairW,
    validate_raises := false, getConfig := getConfigW,
    payload_reread := some payloadW5, now := 42,
    producer := .yields [docW1, docW2],
    lock_owned_at_exit := true }

/-- Witness for C5: a concrete run producing two documents writes the fence
with `started = 42`, upserts the two documents in order, and finishes with a
single `generator_complete = 2` write. -/
theorem C5_generator_ordering_witness :
    connector_permission_sync_generator_task genInputsW5 =
      { raised := none,
        effects := GenEffect.set_fence (some (startedPayload payloadW5 42)) ::
          ([docW1, docW2].map GenEffect.upsert ++ [GenEffect.set_generator_complete 2]),
        lock_released := true } :=
  (C5_generator_ordering genInputsW5 payloadW5 payloadW5 ccPairW
    { doc_sync_config := some { doc_sync_frequency := 60, initial_index_should_sync := false },
      censoring_config := none }
    { doc_sync_frequency := 60, initial_index_should_sync := false }
    [docW1, docW2]
    rfl rfl rfl rfl rfl rfl rfl rfl).1

/-- C9: when the resolved sync config has a null `doc_sync_config`, the
generator returns success with no upsert and no `generator_complete` write if
`censoring_config` is present, and raises (fatally, with the exception-path
cleanup) if `censoring_config` is also absent. -/
theorem C9_sync_config_dispatch (inp : GenInputs) (p : Payload) (cc : CCPair)
    (sc : SyncConfig)
    (hwait : waitForFence inp.obs inp.fence_wait_timeout = .ok p)
    (hlock : inp.lock_acquired = true)
    (hcc : inp.cc_pair = some cc)
    (hval : inp.validate_raises = false)
    (hcfg : inp.getConfig cc.source = some sc)
    (hdsc : sc.doc_sync_config = none) :
    (∀ u, sc.censoring_config = some u →
      connector_permission_sync_generator_task inp =
        { raised := none, effects := [], lock_released := inp.lock_owned_at_exit }) ∧
    (sc.censoring_config = none →
      connector_permission_sync_generator_task inp =
        { raised := some .no_doc_sync_func,
          effects := [GenEffect.generator_clear, GenEffect.taskset_clear,
                      GenEffect.set_fence none],
          lock_released := inp.lock_owned_at_exit }) := by
  constructor
  · intro u hcen
    have hbody : generator_sync_body inp = ([], none) := by
      unfold generator_sync_body
      rw [hcc]
      simp [hval, hcfg, hdsc, hcen]
    unfold connector_permission_sync_generator_task
    rw [hwait]
    simp [hlock, hbody]
  · intro hcen
    have hbody : generator_sync_body inp = ([], some .no_doc_sync_func) := by
      unfold generator_sync_body
      rw [hcc]
      simp [hval, hcfg, hdsc, hcen]
    unfold connector_permission_sync_generator_task
    rw [hwait]
    simp [hlock, hbody]

/-- A concrete ready fence payload used by the C9 witness. -/
def payloadW9 : Payload :=
  { id := "w9", submitted := 0, started := none, celery_task_id := some "t9" }

/-- The concrete generator inputs of the C9 witness: a ready fence and a
censoring-only sync config. -/
def genInputsW9 : GenInputs :=
  { obs := fun _ => .ready payloadW9,
    fence_wait_timeout := 5, lock_acquired := true, cc_pair := some ccPairW,
    validate_raises := false,
    getConfig := fun _ => some { doc_sync_config := none, censoring_config := some () },
    payload_reread := none, now := 0, producer := .yields [],
    lock_owned_at_exit := true }

/-- Witness for C9: a concrete censoring-only source run returns success with
an empty effect trace. -/
theorem C9_sync_config_dispatch_witness :
    connector_permission_sync_generator_task genInputsW9 =
      { raised := none, effects := [], lock_released := true } :=
  (C9_sync_config_dispatch genInputsW9 payloadW9
    ccPairW { doc_sync_config := none, censoring_config := some () }
    rfl rfl rfl rfl rfl rfl).1 () rfl

/-- C10: when `get_source_perm_sync_config` returns no sync config at all for
the CCP's source, the generator task returns normally (no exception) with an
empty effect trace: the fence payload, active signal, taskset, and
`generator_complete` keys are all left unchanged — the fence is neither
cleared nor finalized on this path. -/
theorem C10_no_sync_config_frame (inp : GenInputs) (p : Payload) (cc : CCPair)
    (hwait : waitForFence inp.obs inp.fence_wait_timeout = .ok p)
    (hlock : inp.lock_acquired = true)
    (hcc : inp.cc_pair = some cc)
    (hval : inp.validate_raises = false)
    (hcfg : inp.getConfig cc.source = none) :
    connector_permission_sync_generator_task inp =
      { raised := none, effects := [], lock_released := inp.lock_owned_at_exit } := by
  have hbody : generator_sync_body inp = ([], none) := by
    unfold generator_sync_body
    rw [hcc]
    simp [hval, hcfg]
  unfold connector_permission_sync_generator_task
  rw [hwait]
  simp [hlock, hbody]

/-- A concrete ready fence payload used by the C10 witness. -/
def payloadW10 : Payload :=
  { id := "w10", submitted := 0, started := none, celery_task_id := some "t10" }

/-- Witness for C10: a concrete run with no registered sync config returns
normally with an empty effect trace. -/
theorem C10_no_sync_config_frame_witness :
    connector_permission_sync_generator_task
      { obs := fun _ => .ready payloadW10,
        fence_wait_timeout := 5, lock_acquired := true, cc_pair := some ccPairW,
        validate_raises := false, getConfig := fun _ => none,
        payload_reread := none, now := 0, producer := .yields [],
        lock_owned_at_exit := true } =
      { raised := none, effects := [], lock_released := true } :=
  C10_no_sync_config_frame _ payloadW10
    ccPairW rfl rfl rfl rfl rfl

/-- The decision `validate_permission_sync_fence` takes for one fence:
reset it, renew the `active` signal, or leave everything untouched. -/
inductive ValidateAction
  | reset
  | set_active
  | noop
deriving DecidableEq, Repr

/-- Embedding of `validate_permission_sync_fence` (tasks.py 690-840) for a
fence key that parses to a CCP id.  Inputs are the Redis and celery reads the
function performs: `fenced` (fence existence), `payload` (the parse attempt),
`gen_queue` (the `CONNECTOR_DOC_PERMISSIONS_SYNC` queue scanned by
`celery_find_task`), `queued_tasks` (the snapshot of the
`DOC_PERMISSIONS_UPSERT` queue), `reserved_tasks` (prefetched-but-unacked
generator tasks), `taskset` (the members of the fence's taskset), and
`active` (whether the `active` signal is still live). -/
def validate_permission_sync_fence (fenced : Bool) (payload : PayloadRead)
    (gen_queue : List String) (queued_tasks : List String)
    (reserved_tasks : List String) (taskset : List String) (active : Bool) :
    ValidateAction :=
  if !fenced then .noop
  else
    match payload with
    | .invalid => .reset
    | .missing => .noop
    | .valid p =>
      match p.celery_task_id with
      | none => .noop
      | some tid =>
        if gen_queue.contains tid then .set_active
        else if reserved_tasks.contains tid then .set_active
        else
          let tasks_scanned := taskset.length
          let tasks_not_in_celery :=
            (taskset.filter
              (fun m => !(queued_tasks.contains m) && !(reserved_tasks.contains m))).length
          if tasks_scanned > 0 && tasks_not_in_celery == 0 then .set_active
          else if active then .noop
          else .reset
/-- Reduction of `validate_permission_sync_fence` on an existing fence whose
payload parsed with a non-null `celery_task_id`: the decision is the nested
conditional of tasks.py 766-840. -/
theorem validate_fence_valid_case (p : Payload) (tid : String)
    (hc : p.celery_task_id = some tid)
    (gen_queue queued_tasks reserved_tasks taskset : List String) (active : Bool) :
    validate_permission_sync_fence true (.valid p) gen_queue queued_tasks
      reserved_tasks taskset active =
      (if gen_queue.contains tid then .set_active
       else if reserved_tasks.contains tid then .set_active
       else if taskset.length > 0 &&
           ((taskset.filter
             (fun m => !(queued_tasks.contains m) && !(reserved_tasks.contains m))).length == 0)
         then .set_active
       else if active then .noop
       else .reset) := by
  unfold validate_permission_sync_fence
  dsimp only
  rw [hc]
  rfl

/-- The boolean drained test of the validator holds iff the taskset is
non-empty and every member is in the queued or reserved snapshots. -/
theorem validate_fence_drained_iff (queued_tasks reserved_tasks taskset : List String) :
    ((taskset.length > 0 &&
      ((taskset.filter
        (fun m => !(queued_tasks.contains m) && !(reserved_tasks.contains m))).length == 0)) = true) ↔
    (taskset ≠ [] ∧ ∀ m ∈ taskset, m ∈ queued_tasks ∨ m ∈ reserved_tasks) := by
  rw [Bool.and_eq_true, beq_iff_eq, List.length_eq_zero, List.filter_eq_nil_iff]
  constructor
  · rintro ⟨h1, h2⟩
    constructor
    · intro hnil
      rw [hnil] at h1
      simp at h1
    · intro m hm
      have h3 := h2 m hm
      simp only [Bool.and_eq_true, Bool.not_eq_true', not_and] at h3
      rcases hq : queued_tasks.contains m with _ | _
      · rcases hr : reserved_tasks.contains m with _ | _
        · exact absurd hr (h3 hq)
        · exact Or.inr (List.mem_of_elem_eq_true hr)
      · exact Or.inl (List.mem_of_elem_eq_true hq)
  · rintro ⟨h1, h2⟩
    constructor
    · rcases taskset with _ | ⟨m, ms⟩
      · exact absurd rfl h1
      · simp
    · intro m hm
      simp only [Bool.and_eq_true, Bool.not_eq_true', not_and]
      intro hq
      rcases h2 m hm with h | h
      · have hq2 : queued_tasks.contains m = true := List.elem_eq_true_of_mem h
        rw [hq2] at hq
        exact absurd hq (by decide)
      · have hr2 : reserved_tasks.contains m = true := List.elem_eq_true_of_mem h
        intro hx
        rw [hr2] at hx
        exact absurd hx (by decide)

/-- C7: for a fence the validator inspects, an unparseable payload is reset; a
null `celery_task_id` is skipped; a generator task id seen in the generator
queue or the reserved set renews `active`; failing that, a non-empty taskset
all of whose members appear in the queued or reserved snapshots renews
`active`; a still-live `active` signal is left alone; only when none of these
hold is the fence reset — in particular a fence whose parsed payload's
generator task is observed, or whose `active` signal is live, is never reset. -/
theorem C7_fence_validator_decision (payload : PayloadRead)
    (gen_queue queued_tasks reserved_tasks taskset : List String) (active : Bool) :
    (payload = .invalid →
      validate_permission_sync_fence true payload gen_queue queued_tasks
        reserved_tasks taskset active = .reset) ∧
    (∀ p, payload = .valid p → p.celery_task_id = none →
      validate_permission_sync_fence true payload gen_queue queued_tasks
        reserved_tasks taskset active = .noop) ∧
    (∀ p tid, payload = .valid p → p.celery_task_id = some tid →
      (gen_queue.contains tid = true ∨ reserved_tasks.contains tid = true) →
      validate_permission_sync_fence true payload gen_queue queued_tasks
        reserved_tasks taskset active = .set_active) ∧
    (∀ p tid, payload = .valid p → p.celery_task_id = some tid →
      gen_queue.contains tid = false → reserved_tasks.contains tid = false →
      taskset ≠ [] → (∀ m ∈ taskset, m ∈ queued_tasks ∨ m ∈ reserved_tasks) →
      validate_permission_sync_fence true payload gen_queue queued_tasks
        reserved_tasks taskset active = .set_active) ∧
    (∀ p tid, payload = .valid p → p.celery_task_id = some tid →
      gen_queue.contains tid = false → reserved_tasks.contains tid = false →
      ¬(taskset ≠ [] ∧ ∀ m ∈ taskset, m ∈ queued_tasks ∨ m ∈ reserved_tasks) →
      active = true →
      validate_permission_sync_fence true payload gen_queue queued_tasks
        reserved_tasks taskset active = .noop) ∧
    (∀ p tid, payload = .valid p → p.celery_task_id = some tid →
      gen_queue.contains tid = false → reserved_tasks.contains tid = false →
      ¬(taskset ≠ [] ∧ ∀ m ∈ taskset, m ∈ queued_tasks ∨ m ∈ reserved_tasks) →
      active = false →
      validate_permission_sync_fence true payload gen_queue queued_tasks
        reserved_tasks taskset active = .reset) ∧
    (∀ p tid, payload = .valid p → p.celery_task_id = some tid →
      (gen_queue.contains tid = true ∨ reserved_tasks.contains tid = true ∨
        active = true) →
      validate_permission_sync_fence true payload gen_queue queued_tasks
        reserved_tasks taskset active ≠ .reset) := by
  refine ⟨?_, ?_, ?_, ?_, ?_, ?_, ?_⟩
  · intro hp; subst hp; rfl
  · intro p hp hc; subst hp
    unfold validate_permission_sync_fence
    dsimp only
    rw [hc]
    rfl
  · intro p tid hp hc hfound; subst hp
    rw [validate_fence_valid_case p tid hc]
    rcases hfound with h | h
    · rw [if_pos h]
    · by_cases hg : gen_queue.contains tid = true
      · rw [if_pos hg]
      · rw [if_neg hg, if_pos h]
  · intro p tid hp hc hq hr hts hall; subst hp
    rw [validate_fence_valid_case p tid hc, hq, hr,
      if_neg (show ¬(false = true) by decide), if_neg (show ¬(false = true) by decide),
      if_pos ((validate_fence_drained_iff queued_tasks reserved_tasks taskset).mpr ⟨hts, hall⟩)]
  · intro p tid hp hc hq hr hnd ha; subst hp
    rw [validate_fence_valid_case p tid hc, hq, hr,
      if_neg (show ¬(false = true) by decide), if_neg (show ¬(false = true) by decide),
      if_neg (fun h =>
        hnd ((validate_fence_drained_iff queued_tasks reserved_tasks taskset).mp h)),
      if_pos ha]
  · intro p tid hp hc hq hr hnd ha; subst hp
    rw [validate_fence_valid_case p tid hc, hq, hr,
      if_neg (show ¬(false = true) by decide), if_neg (show ¬(false = true) by decide),
      if_neg (fun h =>
        hnd ((validate_fence_drained_iff queued_tasks reserved_tasks taskset).mp h)),
      if_neg (show ¬(active = true) by simp [ha])]
  · intro p tid hp hc hobs; subst hp
    rw [validate_fence_valid_case p tid hc]
    by_cases hg : gen_queue.contains tid = true
    · rw [if_pos hg]; decide
    · rw [if_neg hg]
      by_cases hr2 : reserved_tasks.contains tid = true
      · rw [if_pos hr2]; decide
      · rw [if_neg hr2]
        by_cases hd : (taskset.length > 0 &&
            ((taskset.filter
              (fun m => !(queued_tasks.contains m) && !(reserved_tasks.contains m))).length == 0)) = true
        · rw [if_pos hd]; decide
        · rw [if_neg hd]
          have ha : active = true := by
            rcases hobs with h | h | h
            · exact absurd h hg
            · exact absurd h hr2
            · exact h
          rw [if_pos ha]
          decide

/-- A concrete parsed fence payload used by the C7 witness. -/
def payloadW7 : Payload :=
  { id := "w7", submitted := 0, started := none, celery_task_id := some "t7" }

/-- Witness for C7: a concrete fence whose generator task id sits in the
reserved set renews the `active` signal. -/
theorem C7_fence_validator_decision_witness :
    validate_permission_sync_fence true (.valid payloadW7)
      [] [] ["t7"] [] false = .set_active :=
  (C7_fence_validator_decision (.valid payloadW7)
      [] [] ["t7"] [] false).2.2.1 payloadW7
    "t7" rfl rfl (Or.inr (by decide))
/-- The function-scoped lock timeout of `try_creating_permissions_sync_task`
(tasks.py 271): the lock TTL is 30 s and the blocking acquire waits
`LOCK_TIMEOUT / 2` seconds. -/
def TRY_CREATE_LOCK_TIMEOUT : Nat := 30

/-- One observable side effect of `try_creating_permissions_sync_task`:
clearing the `generator_complete` and taskset keys, the sync record insert
attempt, setting the `active` signal, a fence write, and the celery enqueue. -/
inductive TryCreateEffect
  | generator_clear
  | taskset_clear
  | insert_sync_record
  | set_active
  | set_fence (p : Payload)
  | send_task
deriving DecidableEq, Repr

/-- Inputs of one execution of `try_creating_permissions_sync_task`: whether
the function-scoped lock was acquired within the blocking timeout, the three
fence reads, whether `insert_sync_record` raised (tolerated), the enqueue
result (`none` models `app.send_task` raising), the generated short payload
id, and the submission time. -/
structure TryCreateInputs where
  lock_acquired : Bool
  perm_fenced : Bool
  delete_fenced : Bool
  prune_fenced : Bool
  insert_record_raises : Bool
  send_task_result : Option String
  payload_id : String
  now : Nat

/-- Embedding of `try_creating_permissions_sync_task` (tasks.py 263-352):
returns the payload id on success and `None` otherwise, together with the
ordered effect trace.  Every exception in the body is caught and mapped to a
`None` return, so the function itself never raises. -/
def try_creating_permissions_sync_task (inp : TryCreateInputs) :
    Option String × List TryCreateEffect :=
  if !inp.lock_acquired then (none, [])
  else if inp.perm_fenced then (none, [])
  else if inp.delete_fenced then (none, [])
  else if inp.prune_fenced then (none, [])
  else
    let payload1 : Payload :=
      { id := inp.payload_id, submitted := inp.now, started := none,
        celery_task_id := none }
    let effs1 : List TryCreateEffect :=
      [TryCreateEffect.generator_clear, TryCreateEffect.taskset_clear,
       TryCreateEffect.insert_sync_record, TryCreateEffect.set_active,
       TryCreateEffect.set_fence payload1]
    match inp.send_task_result with
    | none => (none, effs1)
    | some tid =>
      let payload2 : Payload :=
        { id := inp.payload_id, submitted := inp.now, started := none,
          celery_task_id := some tid }
      (some inp.payload_id,
        effs1 ++ [TryCreateEffect.send_task, TryCreateEffect.set_fence payload2])

/-- C8: `try_creating_permissions_sync_task` returns `None` and performs no
effect when the function-scoped lock (blocking timeout
`TRY_CREATE_LOCK_TIMEOUT / 2 = 15` seconds) is not acquired or when any of the
permissions, delete, or prune fences is already set; any error raised in the
body (modelled at its latest point, the enqueue) is caught and also yields
`None`; the function is total — it never propagates an exception. -/
theorem C8_try_create_guards (inp : TryCreateInputs) :
    TRY_CREATE_LOCK_TIMEOUT / 2 = 15 ∧
    (inp.lock_acquired = false →
      try_creating_permissions_sync_task inp = (none, [])) ∧
    (inp.perm_fenced = true ∨ inp.delete_fenced = true ∨ inp.prune_fenced = true →
      try_creating_permissions_sync_task inp = (none, [])) ∧
    (inp.send_task_result = none →
      (try_creating_permissions_sync_task inp).1 = none) ∧
    (∀ tid, inp.lock_acquired = true → inp.perm_fenced = false →
      inp.delete_fenced = false → inp.prune_fenced = false →
      inp.send_task_result = some tid →
      (try_creating_permissions_sync_task inp).1 = some inp.payload_id) := by
  refine ⟨rfl, ?_, ?_, ?_, ?_⟩
  · intro h
    simp [try_creating_permissions_sync_task, h]
  · rintro (h | h | h) <;>
      simp [try_creating_permissions_sync_task, h]
  · intro h
    rcases hl : inp.lock_acquired with _ | _
    · simp [try_creating_permissions_sync_task, hl]
    · rcases hp : inp.perm_fenced with _ | _
      · rcases hd : inp.delete_fenced with _ | _
        · rcases hpr : inp.prune_fenced with _ | _
          · simp [try_creating_permissions_sync_task, hl, hp, hd, hpr, h]
          · simp [try_creating_permissions_sync_task, hl, hp, hd, hpr]
        · simp [try_creating_permissions_sync_task, hl, hp, hd]
      · simp [try_creating_permissions_sync_task, hl, hp]
  · intro tid hl hp hd hpr hs
    simp [try_creating_permissions_sync_task, hl, hp, hd, hpr, hs]

/-- Witness for C8: a concrete call with the delete fence already set returns
`None` with no effects. -/
theorem C8_try_create_guards_witness :
    try_creating_permissions_sync_task
      { lock_acquired := true, perm_fenced := false, delete_fenced := true,
        prune_fenced := false, insert_record_raises := false,
        send_task_result := some "t8", payload_id := "p8", now := 3 } = (none, []) :=
  (C8_try_create_guards
      { lock_acquired := true, perm_fenced := false, delete_fenced := true,
        prune_fenced := false, insert_record_raises := false,
        send_task_result := some "t8", payload_id := "p8", now := 3 }).2.2.1
    (Or.inr (Or.inl rfl))

/-- Stop bound of the upserter retry policy (tasks.py 86):
`DOCUMENT_PERMISSIONS_UPDATE_STOP_AFTER = 10 * 60` seconds. -/
def DOCUMENT_PERMISSIONS_UPDATE_STOP_AFTER : Nat := 10 * 60

/-- Wait cap of the upserter retry policy (tasks.py 87):
`DOCUMENT_PERMISSIONS_UPDATE_MAX_WAIT = 60` seconds. -/
def DOCUMENT_PERMISSIONS_UPDATE_MAX_WAIT : Nat := 60

/-- Modelled from the spec: the `tenacity.wait_random_exponential` strategy
(the tenacity library is an external dependency, spec 4.4: random exponential
backoff with the given multiplier, capped at `maxWait`).  The random draw for
attempt `n` is the oracle `rand n`, clamped to the exponential envelope
`min maxWait (multiplier * 2 ^ n)`. -/
def wait_random_exponential (multiplier maxWait : Nat) (rand : Nat → Nat)
    (attempt : Nat) : Nat :=
  min (rand attempt) (min maxWait (multiplier * 2 ^ attempt))

/-- Result of a retried call: success at some attempt, a propagated failure at
some attempt, or fuel exhaustion (a modelling artifact never reached in the
theorems below). -/
inductive RetryOutcome (E : Type)
  | success (attempts : Nat)
  | failed (e : E) (attempts : Nat)
  | diverged
deriving DecidableEq, Repr

/-- Modelled from the spec: the `tenacity.retry` combinator (external
dependency, spec 4.4).  Attempt `n` (numbered from 1) takes `dur n` seconds
and produces `outcomes n` (`none` is success, `some e` a raised error).  A
raised error is retried only when `retryPred` accepts it and the elapsed time
is still below `stopAfter`; otherwise the failure propagates to the caller.
Between attempts the strategy sleeps `waitF n` seconds. -/
def retryCall {E : Type} (retryPred : E → Bool) (stopAfter : Nat)
    (waitF : Nat → Nat) (dur : Nat → Nat) (outcomes : Nat → Option E) :
    Nat → Nat → Nat → RetryOutcome E
  | 0, _, _ => .diverged
  | fuel + 1, n, t =>
    match outcomes n with
    | none => .success n
    | some e =>
      if !retryPred e then .failed e n
      else if stopAfter ≤ t + dur n then .failed e n
      else retryCall retryPred stopAfter waitF dur outcomes fuel (n + 1)
        (t + dur n + waitF n)

/-- The retry policy wrapped around `document_update_permissions` (tasks.py
578-584): retry condition `is_retryable_sqlalchemy_error`, wait
`wait_random_exponential(multiplier=1, max=DOCUMENT_PERMISSIONS_UPDATE_MAX_WAIT)`,
stop `stop_after_delay(DOCUMENT_PERMISSIONS_UPDATE_STOP_AFTER)`. -/
def document_update_permissions_retried {E : Type}
    (is_retryable_sqlalchemy_error : E → Bool) (rand dur : Nat → Nat)
    (outcomes : Nat → Option E) (fuel : Nat) : RetryOutcome E :=
  retryCall is_retryable_sqlalchemy_error DOCUMENT_PERMISSIONS_UPDATE_STOP_AFTER
    (wait_random_exponential 1 DOCUMENT_PERMISSIONS_UPDATE_MAX_WAIT rand) dur
    outcomes fuel 1 0

/-- C6: the upserter retry policy stops after 600 elapsed seconds, caps each
random-exponential wait at 60 seconds and at `1 * 2 ^ attempt` (multiplier 1),
propagates a non-retryable error immediately, propagates the error once the
elapsed time reaches the stop bound, retries exactly when the error is
retryable and the stop bound has not been reached, and returns on success. -/
theorem C6_upserter_retry_policy {E : Type} (is_retryable : E → Bool)
    (rand dur : Nat → Nat) (outcomes : Nat → Option E) :
    DOCUMENT_PERMISSIONS_UPDATE_STOP_AFTER = 600 ∧
    DOCUMENT_PERMISSIONS_UPDATE_MAX_WAIT = 60 ∧
    (∀ fuel, document_update_permissions_retried is_retryable rand dur outcomes fuel =
      retryCall is_retryable DOCUMENT_PERMISSIONS_UPDATE_STOP_AFTER
        (wait_random_exponential 1 DOCUMENT_PERMISSIONS_UPDATE_MAX_WAIT rand) dur
        outcomes fuel 1 0) ∧
    (∀ n, wait_random_exponential 1 DOCUMENT_PERMISSIONS_UPDATE_MAX_WAIT rand n ≤ 60 ∧
      wait_random_exponential 1 DOCUMENT_PERMISSIONS_UPDATE_MAX_WAIT rand n ≤ 1 * 2 ^ n) ∧
    (∀ fuel n t e, outcomes n = some e → is_retryable e = false →
      retryCall is_retryable DOCUMENT_PERMISSIONS_UPDATE_STOP_AFTER
        (wait_random_exponential 1 DOCUMENT_PERMISSIONS_UPDATE_MAX_WAIT rand) dur
        outcomes (fuel + 1) n t = .failed e n) ∧
    (∀ fuel n t e, outcomes n = some e →
      DOCUMENT_PERMISSIONS_UPDATE_STOP_AFTER ≤ t + dur n →
      retryCall is_retryable DOCUMENT_PERMISSIONS_UPDATE_STOP_AFTER
        (wait_random_exponential 1 DOCUMENT_PERMISSIONS_UPDATE_MAX_WAIT rand) dur
        outcomes (fuel + 1) n t = .failed e n) ∧
    (∀ fuel n t e, outcomes n = some e → is_retryable e = true →
      t + dur n < DOCUMENT_PERMISSIONS_UPDATE_STOP_AFTER →
      retryCall is_retryable DOCUMENT_PERMISSIONS_UPDATE_STOP_AFTER
        (wait_random_exponential 1 DOCUMENT_PERMISSIONS_UPDATE_MAX_WAIT rand) dur
        outcomes (fuel + 1) n t =
      retryCall is_retryable DOCUMENT_PERMISSIONS_UPDATE_STOP_AFTER
        (wait_random_exponential 1 DOCUMENT_PERMISSIONS_UPDATE_MAX_WAIT rand) dur
        outcomes fuel (n + 1)
        (t + dur n + wait_random_exponential 1 DOCUMENT_PERMISSIONS_UPDATE_MAX_WAIT rand n)) ∧
    (∀ fuel n t, outcomes n = none →
      retryCall is_retryable DOCUMENT_PERMISSIONS_UPDATE_STOP_AFTER
        (wait_random_exponential 1 DOCUMENT_PERMISSIONS_UPDATE_MAX_WAIT rand) dur
        outcomes (fuel + 1) n t = .success n) := by
  refine ⟨rfl, rfl, fun _ => rfl, ?_, ?_, ?_, ?_, ?_⟩
  · intro n
    constructor
    · exact le_trans (Nat.min_le_right _ _) (Nat.min_le_left _ _)
    · exact le_trans (Nat.min_le_right _ _) (Nat.min_le_right _ _)
  · intro fuel n t e ho hr
    simp [retryCall, ho, hr]
  · intro fuel n t e ho hstop
    rcases hr : is_retryable e with _ | _
    · simp [retryCall, ho, hr]
    · simp [retryCall, ho, hr, hstop]
  · intro fuel n t e ho hr hlt
    simp [retryCall, ho, hr, Nat.not_le_of_lt hlt]
  · intro fuel n t ho
    simp [retryCall, ho]

/-- Witness for C6: with a non-retryable error raised on every attempt, the
retried call propagates the failure after the first attempt. -/
theorem C6_upserter_retry_policy_witness :
    retryCall (fun e : Bool => e) DOCUMENT_PERMISSIONS_UPDATE_STOP_AFTER
      (wait_random_exponential 1 DOCUMENT_PERMISSIONS_UPDATE_MAX_WAIT (fun _ => 5))
      (fun _ => 1) (fun _ => some false) (3 + 1) 1 0 = .failed false 1 :=
  (C6_upserter_retry_policy (fun e : Bool => e) (fun _ => 5) (fun _ => 1)
      (fun _ => some false)).2.2.2.2.1 3 1 0 false rfl rfl

end DocPermSync
